import Mathlib

/-!
Verification development for the `terra_flir2tif.py` extractor
(`FlirBin2JpgTiff`): a shallow embedding of its decision phase
(`check_message`), its processing phase (`process_message`) and the
numpy-based binary decode step, together with theorems about them.

Strings are embedded as lists of characters (`Str`), files as a length
plus a byte-content function (`BinFile`), numpy arrays as dimensions plus
an entry function (mirroring numpy's strided-view semantics), and the
side-effecting processing phase as a function producing the list of
external effects (events) it performs plus an optional Python exception.
-/

set_option maxRecDepth 4000

abbrev Str := List Char

/-- `leadsWith pre s` is true iff `pre` occurs at the head of `s`
(the building block for Python's `startswith`/`endswith`/`in`). -/
def leadsWith : Str → Str → Bool
  | [], _ => true
  | _ :: _, [] => false
  | a :: as, b :: bs => a == b && leadsWith as bs

/-- Python `s.endswith(suffix)`. -/
def strEndsWith (s suffix : Str) : Bool :=
  leadsWith suffix.reverse s.reverse

/-- Index of the first occurrence of `sep` in `s` (`None` when absent):
the scanning core of Python's `str.split`. -/
def findSub (sep : Str) : Str → Option Nat
  | [] => if leadsWith sep [] then some 0 else none
  | c :: rest =>
    if leadsWith sep (c :: rest) then some 0
    else (findSub sep rest).map (· + 1)

/-- `containsSub needle hay` : Python `needle in hay`. -/
def containsSub (needle hay : Str) : Bool :=
  (findSub needle hay).isSome

/-- Python `s.split(sep)[1]` for a non-empty separator: `None` when the
separator does not occur (Python raises `IndexError` there); otherwise the
segment between the first occurrence of `sep` and the next
(non-overlapping) occurrence, i.e. the second component of the split. -/
def py_split_get1 (sep s : Str) : Option Str :=
  match findSub sep s with
  | none => none
  | some i =>
    let rest := s.drop (i + sep.length)
    match findSub sep rest with
    | none => some rest
    | some j => some (rest.take j)

/-- Python slice `s[a:b]` (for `a ≤ b`; clamps at the ends like Python). -/
def strSlice (s : Str) (a b : Nat) : Str :=
  (s.drop a).take (b - a)

/-- The dataset-name delimiter `" - "` used by the extractor. -/
def sepStr : Str := " - ".toList

/-- `resource['dataset_info']['name'].split(" - ")[1]` — the timestamp key
the extractor derives from the dataset name (both in `check_message`
line 57 and `process_message` line 94). -/
def timestampOf (name : Str) : Option Str :=
  py_split_get1 sepStr name

/-- The claim's reading of the timestamp key, defined from the spec's
words for comparison with `timestampOf`: the entire substring after the
FIRST `" - "` delimiter. -/
def substringAfterFirst (sep s : Str) : Option Str :=
  (findSub sep s).map (fun i => s.drop (i + sep.length))

/-- Suffix identifying the raw sensor dump: `'_ir.bin'`. -/
def irSuffix : Str := "_ir.bin".toList

/-- Suffix identifying the dataset metadata file: `'_dataset_metadata.json'`. -/
def mdSuffix : Str := "_dataset_metadata.json".toList

def pngExt : Str := "png".toList

def tifExt : Str := "tif".toList

/-- Modelled from the spec: the sensor display name returned by the
external `self.sensors.get_display_name()` collaborator (a fixed string
for the `ir_geotiff` sensor). -/
def displayName : Str := "Thermal IR GeoTIFFs".toList

/-- Modelled from the spec: the external sensor-path naming convention
(`self.sensors.get_sensor_path(timestamp, ext)` /
`create_sensor_path`, from the `terrautils` collaborator): a
deterministic path per timestamp and extension whose basename embeds the
timestamp. -/
def sensor_path (ts : Str) (ext : Str) : Str :=
  "sites/ua-mac/Level_1/ir_geotiff/".toList ++ strSlice ts 0 10 ++
    "/ir_geotiff_".toList ++ ts ++ ".".toList ++ ext

/-- The basename of a path: everything after the last `/`. -/
def baseName (p : Str) : Str :=
  ((p.reverse.takeWhile (fun c => c ≠ '/'))).reverse

/-- `host + ("" if host.endswith("/") else "/") + "files/" + fileid`
(process_message lines 122 and 143). -/
def fileUrl (host fid : Str) : Str :=
  host ++ (if strEndsWith host ("/".toList) then [] else "/".toList) ++
    "files/".toList ++ fid

/-! ## The numpy decode step

`numpy.fromfile(bin_file, numpy.dtype('<u2')).reshape([480, 640]).astype('float')`
followed by `numpy.rot90(raw_data, 3)` (process_message lines 115-116 and
132-133). A file on disk is a byte count plus a byte-content function; a
numpy array is its shape plus an entry function (numpy arrays are strided
views over a flat buffer, and `rot90` returns such a view). -/

/-- A binary file on disk: its size in bytes and its byte contents. -/
structure BinFile where
  size : Nat
  byteAt : Nat → Nat

/-- A 1-dimensional numpy array of unsigned values. -/
structure Nd1 where
  size : Nat
  item : Nat → Nat

/-- A 2-dimensional numpy array (entries already widened to the
mathematical integers, standing for `astype('float')` — all values here
are exactly representable). -/
structure NdArray where
  rows : Nat
  cols : Nat
  entry : Nat → Nat → Int

/-- Python exceptions this extractor can raise or propagate. -/
inductive PyErr where
  /-- `ValueError` raised at process_message line 91 (missing input). -/
  | valueError
  /-- `IndexError` from `split(" - ")[1]` on a delimiter-free name. -/
  | indexError
  /-- `ValueError` from `numpy.reshape` when the element count is wrong. -/
  | reshapeError
  /-- `KeyError` from the nested spatial-metadata lookup (line 130). -/
  | keyError
  /-- an error surfaced from an external collaborator call. -/
  | collabError
deriving DecidableEq, Repr

/-- `numpy.fromfile(f, numpy.dtype('<u2'))`: reads `⌊size/2⌋` unsigned
16-bit little-endian elements, silently dropping a trailing odd byte
(numpy computes the item count as the file size integer-divided by the
item size). Element `k` is `byte[2k] + 256 * byte[2k+1]`. -/
def np_fromfile_u2 (f : BinFile) : Nd1 :=
  ⟨f.size / 2, fun k => f.byteAt (2 * k) % 256 + 256 * (f.byteAt (2 * k + 1) % 256)⟩

/-- `a.reshape([r, c])`: raises `ValueError` unless the element count is
exactly `r * c`; otherwise a row-major 2-D view of the same buffer. -/
def np_reshape (a : Nd1) (r c : Nat) : Except PyErr NdArray :=
  if a.size = r * c then
    Except.ok ⟨r, c, fun i j => (a.item (i * c + j) : Int)⟩
  else
    Except.error PyErr.reshapeError

/-- `numpy.rot90(m)`: one 90° counter-clockwise rotation;
`rot90(m)[i, j] = m[j, cols - 1 - i]`, with the shape transposed. -/
def np_rot90 (a : NdArray) : NdArray :=
  ⟨a.cols, a.rows, fun i j => a.entry j (a.cols - 1 - i)⟩

/-- The decode step of process_message (lines 115-116 / 132-133):
`numpy.fromfile(bin_file, numpy.dtype('<u2')).reshape([480, 640]).astype('float')`
then `numpy.rot90(raw_data, 3)`. -/
def decodeBinData (f : BinFile) : Except PyErr NdArray :=
  match np_reshape (np_fromfile_u2 f) 480 640 with
  | Except.error e => Except.error e
  | Except.ok a => Except.ok (np_rot90 (np_rot90 (np_rot90 a)))

/-! ## The decision phase: `check_message` (lines 38-74)

External collaborator calls (`is_latest_file`, `os.path.exists`,
`download_metadata`, `get_extractor_metadata`, `get_terraref_metadata`)
are oracles in the environment; the output records the decision, a
possible exception, and whether the metadata download (line 66) was
performed. -/

/-- `pyclowder.utils.CheckMessage` (only the two values this extractor
returns). -/
inductive CheckMessage where
  | download
  | ignore
deriving DecidableEq, Repr

/-- One entry of `resource['files']`: `filename` is `None` when the
`'filename'` key is absent (`'filename' in f` is false). -/
structure FileEntry where
  filename : Option Str
  filepath : Str

/-- Environment of one `check_message` call: the resource fields read and
the oracles for the external collaborator calls. -/
structure CheckEnv where
  /-- `"rulechecked" in parameters and parameters["rulechecked"]` is truthy. -/
  rulechecked : Bool
  /-- `is_latest_file(resource)` (external `terrautils` collaborator). -/
  isLatest : Bool
  /-- `resource['files']`. -/
  files : List FileEntry
  /-- `self.overwrite`. -/
  overwrite : Bool
  /-- `resource['dataset_info']['name']`. -/
  datasetName : Str
  /-- `os.path.exists`. -/
  pathExists : Str → Bool
  /-- `get_extractor_metadata(md, self.extractor_info['name'])` is truthy
  on the downloaded metadata `md`. -/
  hasExtractorMd : Bool
  /-- `get_terraref_metadata(md)` is truthy on the downloaded metadata. -/
  hasTerrarefMd : Bool

/-- check_message lines 47-50: the loop over `resource['files']` that
keeps overwriting `found_ir` with the filepath of each file whose
filename ends in `'_ir.bin'`. -/
def foundIrStep (acc : Option Str) (f : FileEntry) : Option Str :=
  match f.filename with
  | some n => if strEndsWith n irSuffix then some f.filepath else acc
  | none => acc

def found_ir (files : List FileEntry) : Option Str :=
  files.foldl foundIrStep none

/-- check_message lines 56-63: the `if not self.overwrite` block — derive
the timestamp (`split(" - ")[1]`, which raises `IndexError` on a
delimiter-free name), derive both output paths, and report whether both
already exist. When overwriting, the block is skipped and no skip can
arise from it. -/
def outputsCheck (env : CheckEnv) : Except PyErr Bool :=
  if !env.overwrite then
    match timestampOf env.datasetName with
    | none => Except.error PyErr.indexError
    | some ts =>
      Except.ok (env.pathExists (sensor_path ts pngExt) &&
                 env.pathExists (sensor_path ts tifExt))
  else
    Except.ok false

/-- check_message (lines 38-74). Returns the decision (or the propagated
exception) together with a flag telling whether the
`download_metadata` call on line 66 happened. -/
def check_message (env : CheckEnv) : Except PyErr CheckMessage × Bool :=
  if env.rulechecked then
    (Except.ok CheckMessage.download, false)
  else if !env.isLatest then
    (Except.ok CheckMessage.ignore, false)
  else if (found_ir env.files).isNone then
    (Except.ok CheckMessage.ignore, false)
  else
    match outputsCheck env with
    | Except.error e => (Except.error e, false)
    | Except.ok true => (Except.ok CheckMessage.ignore, false)
    | Except.ok false =>
      if env.hasExtractorMd && !env.overwrite then
        (Except.ok CheckMessage.ignore, true)
      else if env.hasTerrarefMd then
        (Except.ok CheckMessage.download, true)
      else
        (Except.ok CheckMessage.ignore, true)

/-! ## The processing phase: `process_message` (lines 76-153)

The run is embedded as a function from an environment (resource fields,
bin-file contents, filesystem and collaborator oracles) to the list of
external effects performed, in order, plus an optional propagated Python
exception. When an exception is raised, the events already performed are
kept and no later event occurs. -/

/-- One external effect of a processing run. -/
inductive Event where
  /-- `self.start_message(resource)` (line 77). -/
  | startMessage
  /-- `build_dataset_hierarchy(...)` (lines 99-102) with the year, month,
  day path components and the leaf dataset name. -/
  | buildHierarchy (year month day leafName : Str)
  /-- `upload_metadata(..., target_dsid, lemna_md)` (line 109). -/
  | uploadLemnaMeta (target : Str)
  /-- `numpy.fromfile(bin_file, ...)` — a decode of the raw file
  (line 115 or line 132). -/
  | decodeBin (path : Str)
  /-- `create_image(raw_data, png_path, self.scale_values)` (line 117). -/
  | createImage (path : Str)
  /-- `upload_to_dataset(..., target, path)` returning the url collected
  into `uploaded_file_ids` (lines 121-122 / 142-143). -/
  | uploadFile (target path url : Str)
  /-- `create_geotiff(tc, gps_bounds, out_tmp_tiff, ...)` (line 139). -/
  | createGeotiff (path : Str)
  /-- `shutil.move(out_tmp_tiff, tiff_path)` (line 140). -/
  | moveFile (src dst : Str)
  /-- `upload_metadata(..., resource['id'], metadata)` with
  `{"files_created": uploaded_file_ids}` (lines 148-151). -/
  | writeCompletion (target : Str) (ids : List Str)
  /-- `self.end_message(resource)` (line 153). -/
  | endMessage
deriving DecidableEq, Repr

/-- Environment of one `process_message` call: resource fields, the raw
file contents, and oracles for the filesystem and the fallible external
collaborator calls (`True` = the call succeeds). -/
structure ProcEnv where
  /-- `resource['local_paths']`. -/
  localPaths : List Str
  /-- truthiness of `get_terraref_metadata(load_json_file(f), 'flirIrCamera')`
  for a metadata file `f` (line 85). -/
  flirMdOf : Str → Bool
  /-- `resource['dataset_info']['name']`. -/
  datasetName : Str
  /-- `self.overwrite`. -/
  overwrite : Bool
  /-- `os.path.exists` (the two artifact-existence probes, lines 112/128). -/
  pathExists : Str → Bool
  /-- the contents of the raw `_ir.bin` file. -/
  binData : BinFile
  /-- `host`. -/
  host : Str
  /-- `resource['id']`. -/
  resourceId : Str
  /-- result of `build_dataset_hierarchy` (line 99). -/
  targetDsid : Str
  /-- `tempfile.gettempdir()`. -/
  tmpDir : Str
  /-- `metadata['spatial_metadata']['flirIrCamera']['bounding_box']`
  is present (line 130 raises `KeyError` otherwise). -/
  hasBoundingBox : Bool
  /-- `create_image` succeeds (line 117). -/
  createImageOk : Bool
  /-- `upload_to_dataset` of the png succeeds (line 121). -/
  uploadPngOk : Bool
  /-- `create_geotiff` succeeds (line 139). -/
  geotiffOk : Bool
  /-- `upload_to_dataset` of the tiff succeeds (line 142). -/
  uploadTiffOk : Bool
  /-- file id returned for the png upload. -/
  pngFileId : Str
  /-- file id returned for the tiff upload. -/
  tiffFileId : Str

/-- process_message lines 80-88: the loop over `resource['local_paths']`
locating the metadata (`metadata` is re-assigned from every
`_dataset_metadata.json` file — `None` when the flirIrCamera key is
absent from that file) and the bin file (re-assigned from every
`_ir.bin` file). Returns `(metadata, bin_file)`. -/
def locateStep (flirMdOf : Str → Bool) (acc : Option Str × Option Str)
    (f : Str) : Option Str × Option Str :=
  if strEndsWith f mdSuffix then
    ((if flirMdOf f then some f else none), acc.2)
  else if strEndsWith f irSuffix then
    (acc.1, some f)
  else acc

def locate_loop (flirMdOf : Str → Bool) (paths : List Str) :
    Option Str × Option Str :=
  paths.foldl (locateStep flirMdOf) (none, none)

/-- `os.path.join(tempfile.gettempdir(), resource['id'])` (line 138). -/
def tmpTiffPath (env : ProcEnv) : Str :=
  env.tmpDir ++ "/".toList ++ env.resourceId

/-- The png branch, lines 111-126: events performed, urls collected into
`uploaded_file_ids`, optional exception, and the resulting
`skipped_png` flag. -/
def pngStep (env : ProcEnv) (binPath : Str) (png_path : Str) :
    List Event × List Str × Option PyErr × Bool :=
  if !env.pathExists png_path || env.overwrite then
    match decodeBinData env.binData with
    | Except.error e => ([Event.decodeBin binPath], [], some e, false)
    | Except.ok _ =>
      if !env.createImageOk then
        ([Event.decodeBin binPath], [], some PyErr.collabError, false)
      else
        let ev := [Event.decodeBin binPath, Event.createImage png_path]
        if !(env.localPaths.contains png_path) then
          if !env.uploadPngOk then
            (ev, [], some PyErr.collabError, false)
          else
            let url := fileUrl env.host env.pngFileId
            (ev ++ [Event.uploadFile env.targetDsid png_path url], [url],
             none, false)
        else
          (ev, [], none, false)
  else
    ([], [], none, true)

/-- The tiff branch, lines 128-145: events performed, urls collected,
optional exception. `skipped_png` tells whether the png branch decoded
(false) or was skipped (true), in which case this branch re-decodes
(lines 131-133). -/
def tiffStep (env : ProcEnv) (binPath : Str) (tiff_path : Str)
    (skipped_png : Bool) : List Event × List Str × Option PyErr :=
  if !env.pathExists tiff_path || env.overwrite then
    if !env.hasBoundingBox then
      ([], [], some PyErr.keyError)
    else
      let decodeRes : List Event × Option PyErr :=
        if skipped_png then
          match decodeBinData env.binData with
          | Except.error e => ([Event.decodeBin binPath], some e)
          | Except.ok _ => ([Event.decodeBin binPath], none)
        else ([], none)
      match decodeRes with
      | (ev, some e) => (ev, [], some e)
      | (ev, none) =>
        if !env.geotiffOk then
          (ev, [], some PyErr.collabError)
        else
          let ev := ev ++ [Event.createGeotiff (tmpTiffPath env),
                           Event.moveFile (tmpTiffPath env) tiff_path]
          if !(env.localPaths.contains tiff_path) then
            if !env.uploadTiffOk then
              (ev, [], some PyErr.collabError)
            else
              let url := fileUrl env.host env.tiffFileId
              (ev ++ [Event.uploadFile env.targetDsid tiff_path url], [url],
               none)
          else
            (ev, [], none)
  else
    ([], [], none)

/-- process_message (lines 76-153). -/
def process_message (env : ProcEnv) : List Event × Option PyErr :=
  let ev0 := [Event.startMessage]
  match locate_loop env.flirMdOf env.localPaths with
  | (metadata, binFile) =>
    if binFile.isNone || metadata.isNone then
      (ev0, some PyErr.valueError)
    else
      match timestampOf env.datasetName with
      | none => (ev0, some PyErr.indexError)
      | some ts =>
        let binPath := binFile.getD []
        let png_path := sensor_path ts pngExt
        let tiff_path := sensor_path ts tifExt
        let ev1 := ev0 ++
          [Event.buildHierarchy (strSlice ts 0 4) (strSlice ts 5 7)
             (strSlice ts 8 10) (displayName ++ sepStr ++ ts),
           Event.uploadLemnaMeta env.targetDsid]
        match pngStep env binPath png_path with
        | (evP, _, some e, _) => (ev1 ++ evP, some e)
        | (evP, idsP, none, skipped_png) =>
          match tiffStep env binPath tiff_path skipped_png with
          | (evT, _, some e) => (ev1 ++ evP ++ evT, some e)
          | (evT, idsT, none) =>
            (ev1 ++ evP ++ evT ++
               [Event.writeCompletion env.resourceId (idsP ++ idsT),
                Event.endMessage],
             none)

/-- Number of decode events in a trace. -/
def countDecode (E : List Event) : Nat :=
  E.countP (fun e => match e with | Event.decodeBin _ => true | _ => false)

/-- Number of completion-record writes in a trace. -/
def countCompletion (E : List Event) : Nat :=
  E.countP (fun e => match e with | Event.writeCompletion _ _ => true | _ => false)

/-- Number of `create_image` calls in a trace. -/
def countCreateImage (E : List Event) : Nat :=
  E.countP (fun e => match e with | Event.createImage _ => true | _ => false)

/-- The urls of the files uploaded in a trace, in order. -/
def uploadUrls (E : List Event) : List Str :=
  E.filterMap (fun e => match e with | Event.uploadFile _ _ url => some url | _ => none)

/-- The local path an event writes to, if any (`create_image` writes its
target, `create_geotiff` writes the staging path, `shutil.move` writes
its destination). -/
def writeTarget : Event → Option Str
  | Event.createImage p => some p
  | Event.createGeotiff p => some p
  | Event.moveFile _ dst => some dst
  | _ => none


/-- The events every run that reaches the timestamp derivation performs
before the artifact branches: `start_message`, the
`build_dataset_hierarchy` call with the year/month/day slices of the
timestamp (lines 99-102), and the LemnaTec metadata upload to the
derived dataset (line 109). -/
def headerEvents (env : ProcEnv) (ts : Str) : List Event :=
  [Event.startMessage,
   Event.buildHierarchy (strSlice ts 0 4) (strSlice ts 5 7)
     (strSlice ts 8 10) (displayName ++ sepStr ++ ts),
   Event.uploadLemnaMeta env.targetDsid]

/-! ## Theorems about the decode step (claims C2, C3) -/

/-- C2: for every raw sensor file whose contents are exactly 480×640
unsigned 16-bit little-endian values (2·480·640 bytes), decoding reads
the values, reshapes them to a 480×640 grid, widens them to the exact
numeric domain and rotates the grid 270° (three 90° rotations): it
succeeds with a 640×480 frame whose entry `(i, j)` is the 16-bit value at
row `479 - j`, column `i` of the raw grid; in particular an all-zero
input yields an all-zero 640×480 frame. -/
theorem decode_valid_frame (f : BinFile) (h : f.size = 2 * (480 * 640)) :
    ∃ a, decodeBinData f = Except.ok a ∧ a.rows = 640 ∧ a.cols = 480 ∧
      (∀ i j, i < 640 → j < 480 →
        a.entry i j =
          ((f.byteAt (2 * ((479 - j) * 640 + i)) % 256 +
            256 * (f.byteAt (2 * ((479 - j) * 640 + i) + 1) % 256) : Nat) : Int)) ∧
      ((∀ k, f.byteAt k = 0) → ∀ i j, a.entry i j = 0) := by
  have hs : f.size / 2 = 480 * 640 := by omega
  have hsz : (np_fromfile_u2 f).size = 480 * 640 := hs
  refine ⟨np_rot90 (np_rot90 (np_rot90
      ⟨480, 640, fun i j => ((np_fromfile_u2 f).item (i * 640 + j) : Int)⟩)),
    ?_, rfl, rfl, ?_, ?_⟩
  · unfold decodeBinData np_reshape
    rw [if_pos hsz]
  · intro i j hi hj
    simp only [np_rot90, np_fromfile_u2]
    have h1 : (480 - 1 - j) * 640 + (640 - 1 - (640 - 1 - i)) =
        (479 - j) * 640 + i := by omega
    rw [h1]
  · intro hz i j
    simp [np_rot90, np_fromfile_u2, hz]

/-- C2 witness: the all-zero 480×640 frame decodes to an all-zero
640×480 frame. -/
theorem decode_valid_frame_witness :
    ∃ a, decodeBinData ⟨2 * (480 * 640), fun _ => 0⟩ = Except.ok a ∧
      a.rows = 640 ∧ a.cols = 480 ∧ a.entry 0 0 = 0 := by
  obtain ⟨a, h1, h2, h3, _, h5⟩ :=
    decode_valid_frame ⟨2 * (480 * 640), fun _ => 0⟩ rfl
  exact ⟨a, h1, h2, h3, h5 (fun _ => rfl) 0 0⟩

/-- C3 counterexample: a file of `2·480·640 + 1` bytes has a byte count
that is not a multiple of the 2-byte element size, yet decode succeeds —
`numpy.fromfile` silently drops the trailing odd byte, so the claimed
decode failure does not happen. -/
theorem decode_odd_byte_count_succeeds :
    (2 * (480 * 640) + 1) % 2 ≠ 0 ∧
    (decodeBinData ⟨2 * (480 * 640) + 1, fun _ => 0⟩).isOk = true := by
  constructor
  · decide
  · have hs : (2 * (480 * 640) + 1) / 2 = 480 * 640 := by norm_num
    simp [decodeBinData, np_reshape, np_fromfile_u2, hs, Except.isOk,
      Except.toBool]

/-- C3 amended: the decode step fails (with the `ValueError` numpy's
reshape raises, and produces no frame) exactly when the file's byte
count integer-divided by the element size 2 differs from 480·640; a
trailing odd byte is silently discarded rather than causing a failure. -/
theorem decode_error_iff (f : BinFile) :
    decodeBinData f = Except.error PyErr.reshapeError ↔ f.size / 2 ≠ 480 * 640 := by
  by_cases hs : f.size / 2 = 480 * 640
  · simp [decodeBinData, np_reshape, np_fromfile_u2, hs]
  · simp [decodeBinData, np_reshape, np_fromfile_u2, hs]

/-- C3 amended, witness: a 5-byte file fails to decode. -/
theorem decode_error_iff_witness :
    decodeBinData ⟨5, fun _ => 0⟩ = Except.error PyErr.reshapeError :=
  (decode_error_iff ⟨5, fun _ => 0⟩).mpr (by decide)

/-! ## Theorems about the decision phase (claims C1, part of C10) -/

/-- `timestampOf` is `none` exactly when the name does not contain the
`" - "` delimiter (where Python raises `IndexError`). -/
theorem timestampOf_none_iff (name : Str) :
    timestampOf name = none ↔ containsSub sepStr name = false := by
  simp only [timestampOf, py_split_get1, containsSub]
  cases h : findSub sepStr name with
  | none => simp
  | some i =>
    cases h2 : findSub sepStr (name.drop (i + sepStr.length)) <;> simp [h2]

/-- C1: the decision phase evaluates the decision table in order with
first match winning: (1) bypass flag → download, nothing else evaluated;
(2) not latest → ignore; (3) no `_ir.bin` file → ignore; (4) not
overwriting and both outputs on disk → ignore; (5) not overwriting and
extractor metadata present → ignore; (6) no terraref metadata → ignore;
(7) otherwise download. When overwriting, checks (4) and (5) are disabled
and the outcome is decided by check (6) alone; the metadata download
happens exactly when checks (2)-(4) pass without the bypass. -/
theorem check_message_decision_table (env : CheckEnv) :
    (env.rulechecked = true →
      check_message env = (Except.ok CheckMessage.download, false)) ∧
    (env.rulechecked = false → env.isLatest = false →
      check_message env = (Except.ok CheckMessage.ignore, false)) ∧
    (env.rulechecked = false → env.isLatest = true →
      found_ir env.files = none →
      check_message env = (Except.ok CheckMessage.ignore, false)) ∧
    (∀ ts, env.rulechecked = false → env.isLatest = true →
      (found_ir env.files).isSome = true → env.overwrite = false →
      timestampOf env.datasetName = some ts →
      env.pathExists (sensor_path ts pngExt) = true →
      env.pathExists (sensor_path ts tifExt) = true →
      check_message env = (Except.ok CheckMessage.ignore, false)) ∧
    (∀ ts, env.rulechecked = false → env.isLatest = true →
      (found_ir env.files).isSome = true → env.overwrite = false →
      timestampOf env.datasetName = some ts →
      (env.pathExists (sensor_path ts pngExt) = false ∨
       env.pathExists (sensor_path ts tifExt) = false) →
      env.hasExtractorMd = true →
      check_message env = (Except.ok CheckMessage.ignore, true)) ∧
    (∀ ts, env.rulechecked = false → env.isLatest = true →
      (found_ir env.files).isSome = true → env.overwrite = false →
      timestampOf env.datasetName = some ts →
      (env.pathExists (sensor_path ts pngExt) = false ∨
       env.pathExists (sensor_path ts tifExt) = false) →
      env.hasExtractorMd = false → env.hasTerrarefMd = false →
      check_message env = (Except.ok CheckMessage.ignore, true)) ∧
    (∀ ts, env.rulechecked = false → env.isLatest = true →
      (found_ir env.files).isSome = true → env.overwrite = false →
      timestampOf env.datasetName = some ts →
      (env.pathExists (sensor_path ts pngExt) = false ∨
       env.pathExists (sensor_path ts tifExt) = false) →
      env.hasExtractorMd = false → env.hasTerrarefMd = true →
      check_message env = (Except.ok CheckMessage.download, true)) ∧
    (env.rulechecked = false → env.isLatest = true →
      (found_ir env.files).isSome = true → env.overwrite = true →
      check_message env =
        (Except.ok (if env.hasTerrarefMd then CheckMessage.download
                    else CheckMessage.ignore), true)) ∧
    ((check_message env).2 = true ↔
      env.rulechecked = false ∧ env.isLatest = true ∧
      (found_ir env.files).isSome = true ∧
      (env.overwrite = true ∨
        ∃ ts, timestampOf env.datasetName = some ts ∧
          (env.pathExists (sensor_path ts pngExt) = false ∨
           env.pathExists (sensor_path ts tifExt) = false))) := by
  refine ⟨?_, ?_, ?_, ?_, ?_, ?_, ?_, ?_, ?_⟩
  · intro h1
    simp [check_message, h1]
  · intro h1 h2
    simp [check_message, h1, h2]
  · intro h1 h2 h3
    simp [check_message, h1, h2, h3]
  · intro ts h1 h2 h3 h4 h5 h6 h7
    obtain ⟨v, hv⟩ := Option.isSome_iff_exists.mp h3
    simp [check_message, outputsCheck, h1, h2, h4, h5, h6, h7, hv]
  · intro ts h1 h2 h3 h4 h5 h6 h7
    obtain ⟨v, hv⟩ := Option.isSome_iff_exists.mp h3
    rcases h6 with h6 | h6 <;>
      simp [check_message, outputsCheck, h1, h2, h4, h5, h6, h7, hv]
  · intro ts h1 h2 h3 h4 h5 h6 h7 h8
    obtain ⟨v, hv⟩ := Option.isSome_iff_exists.mp h3
    rcases h6 with h6 | h6 <;>
      simp [check_message, outputsCheck, h1, h2, h4, h5, h6, h7, h8, hv]
  · intro ts h1 h2 h3 h4 h5 h6 h7 h8
    obtain ⟨v, hv⟩ := Option.isSome_iff_exists.mp h3
    rcases h6 with h6 | h6 <;>
      simp [check_message, outputsCheck, h1, h2, h4, h5, h6, h7, h8, hv]
  · intro h1 h2 h3 h4
    obtain ⟨v, hv⟩ := Option.isSome_iff_exists.mp h3
    by_cases h5 : env.hasTerrarefMd <;>
      simp [check_message, outputsCheck, h1, h2, h4, h5, hv]
  · constructor
    · intro hd
      cases h1 : env.rulechecked with
      | true => simp [check_message, h1] at hd
      | false =>
        cases h2 : env.isLatest with
        | false => simp [check_message, h1, h2] at hd
        | true =>
          cases hfi : found_ir env.files with
          | none => simp [check_message, h1, h2, hfi] at hd
          | some v =>
            refine ⟨rfl, rfl, by simp [hfi], ?_⟩
            cases h4 : env.overwrite with
            | true => exact Or.inl rfl
            | false =>
              cases hts : timestampOf env.datasetName with
              | none =>
                simp [check_message, outputsCheck, h1, h2, h4, hfi, hts] at hd
              | some ts =>
                refine Or.inr ⟨ts, rfl, ?_⟩
                cases hp : env.pathExists (sensor_path ts pngExt) with
                | false => exact Or.inl rfl
                | true =>
                  cases ht : env.pathExists (sensor_path ts tifExt) with
                  | false => exact Or.inr rfl
                  | true =>
                    simp [check_message, outputsCheck, h1, h2, h4, hfi,
                      hts, hp, ht] at hd
    · rintro ⟨h1, h2, h3, h4⟩
      obtain ⟨v, hv⟩ := Option.isSome_iff_exists.mp h3
      rcases h4 with h4 | ⟨ts, hts, h5⟩
      · by_cases h5 : env.hasExtractorMd <;>
          by_cases h6 : env.hasTerrarefMd <;>
            simp [check_message, outputsCheck, h1, h2, h4, h5, h6, hv]
      · rcases h5 with h5 | h5 <;>
          by_cases h6 : env.overwrite <;>
            by_cases h7 : env.hasExtractorMd <;>
              by_cases h8 : env.hasTerrarefMd <;>
                simp [check_message, outputsCheck, h1, h2, h5, h6, h7, h8,
                  hts, hv]

/-- C1 witness: a concrete resource with the bypass flag unset, the
latest file, an `_ir.bin` file present, overwrite off and both outputs on
disk is skipped by check (4), with no metadata download. -/
theorem check_message_decision_table_witness :
    check_message
      { rulechecked := false
        isLatest := true
        files := [⟨some ("x_ir.bin".toList), "p/x_ir.bin".toList⟩]
        overwrite := false
        datasetName := "Thermal IR - 2018-07-01__12-30-00".toList
        pathExists := fun _ => true
        hasExtractorMd := false
        hasTerrarefMd := true } =
      (Except.ok CheckMessage.ignore, false) :=
  (check_message_decision_table _).2.2.2.1 ("2018-07-01__12-30-00".toList)
    rfl rfl (by decide) rfl (by decide) rfl rfl

/-! ## Structural lemmas about the two artifact branches -/

/-- Decode count, skip flag, collected upload ids and absence of
completion writes in the png branch. -/
lemma pngStep_facts (env : ProcEnv) (bp pp : Str) :
    countDecode (pngStep env bp pp).1 =
      (if (!env.pathExists pp || env.overwrite) = true then 1 else 0) ∧
    (pngStep env bp pp).2.2.2 = !(!env.pathExists pp || env.overwrite) ∧
    (pngStep env bp pp).2.1 = uploadUrls (pngStep env bp pp).1 ∧
    countCompletion (pngStep env bp pp).1 = 0 := by
  by_cases h : (!env.pathExists pp || env.overwrite) = true
  · simp only [pngStep, h, if_true]
    cases hd : decodeBinData env.binData with
    | error e =>
      simp [h, countDecode, countCompletion, uploadUrls, List.countP_cons,
        List.countP_nil]
    | ok a =>
      split_ifs <;>
        simp [h, countDecode, countCompletion, uploadUrls, List.countP_cons,
          List.countP_nil]
  · simp [pngStep, h, countDecode, countCompletion, uploadUrls]

/-- Decode count, success conditions, collected upload ids and absence of
completion writes and image renders in the tiff branch. -/
lemma tiffStep_facts (env : ProcEnv) (bp tp : Str) (sk : Bool) :
    countDecode (tiffStep env bp tp sk).1 =
      (if ((!env.pathExists tp || env.overwrite) && env.hasBoundingBox && sk)
          = true then 1 else 0) ∧
    (tiffStep env bp tp sk).2.1 = uploadUrls (tiffStep env bp tp sk).1 ∧
    countCompletion (tiffStep env bp tp sk).1 = 0 ∧
    countCreateImage (tiffStep env bp tp sk).1 = 0 ∧
    ((tiffStep env bp tp sk).2.2 = none →
      (!env.pathExists tp || env.overwrite) = true →
      env.hasBoundingBox = true) := by
  by_cases h : (!env.pathExists tp || env.overwrite) = true
  · cases hbb : env.hasBoundingBox with
    | false =>
      simp [tiffStep, h, hbb, countDecode, countCompletion, countCreateImage,
        uploadUrls]
    | true =>
      cases sk with
      | false =>
        simp only [tiffStep, h, hbb, if_true, Bool.not_true, Bool.false_eq_true,
          if_false]
        split_ifs <;>
          simp_all [countDecode, countCompletion, countCreateImage, uploadUrls,
            List.countP_cons, List.countP_nil]
      | true =>
        simp only [tiffStep, h, hbb, if_true, Bool.not_true, Bool.false_eq_true,
          if_false]
        cases hd : decodeBinData env.binData with
        | error e =>
          simp_all [countDecode, countCompletion, countCreateImage, uploadUrls,
            List.countP_cons, List.countP_nil]
        | ok a =>
          split_ifs <;>
            simp_all [countDecode, countCompletion, countCreateImage, uploadUrls,
              List.countP_cons, List.countP_nil]
  · simp [tiffStep, h, countDecode, countCompletion, countCreateImage,
      uploadUrls]

/-- Case analysis of a processing run: every run has one of five shapes —
missing input, delimiter-free dataset name, png-branch failure,
tiff-branch failure, or success. -/
lemma process_message_cases (env : ProcEnv) (md bf : Option Str)
    (hl : locate_loop env.flirMdOf env.localPaths = (md, bf)) :
    ((bf.isNone || md.isNone) = true ∧
      process_message env = ([Event.startMessage], some PyErr.valueError)) ∨
    ((bf.isNone || md.isNone) = false ∧ timestampOf env.datasetName = none ∧
      process_message env = ([Event.startMessage], some PyErr.indexError)) ∨
    (∃ ts evP idsP e skP, (bf.isNone || md.isNone) = false ∧
      timestampOf env.datasetName = some ts ∧
      pngStep env (bf.getD []) (sensor_path ts pngExt) = (evP, idsP, some e, skP) ∧
      process_message env = (headerEvents env ts ++ evP, some e)) ∨
    (∃ ts evP idsP skP evT idsT e, (bf.isNone || md.isNone) = false ∧
      timestampOf env.datasetName = some ts ∧
      pngStep env (bf.getD []) (sensor_path ts pngExt) = (evP, idsP, none, skP) ∧
      tiffStep env (bf.getD []) (sensor_path ts tifExt) skP = (evT, idsT, some e) ∧
      process_message env = (headerEvents env ts ++ evP ++ evT, some e)) ∨
    (∃ ts evP idsP skP evT idsT, (bf.isNone || md.isNone) = false ∧
      timestampOf env.datasetName = some ts ∧
      pngStep env (bf.getD []) (sensor_path ts pngExt) = (evP, idsP, none, skP) ∧
      tiffStep env (bf.getD []) (sensor_path ts tifExt) skP = (evT, idsT, none) ∧
      process_message env =
        (headerEvents env ts ++ evP ++ evT ++
          [Event.writeCompletion env.resourceId (idsP ++ idsT),
           Event.endMessage], none)) := by
  by_cases hmb : (bf.isNone || md.isNone) = true
  · exact Or.inl ⟨hmb, by simp [process_message, hl, hmb]⟩
  · have hmb2 : (bf.isNone || md.isNone) = false := by
      revert hmb
      cases bf.isNone || md.isNone <;> simp
    cases hts : timestampOf env.datasetName with
    | none =>
      exact Or.inr (Or.inl ⟨hmb2, rfl,
        by simp [process_message, hl, hmb2, hts]⟩)
    | some ts =>
      rcases hp : pngStep env (bf.getD []) (sensor_path ts pngExt) with
        ⟨evP, idsP, errP, skP⟩
      cases errP with
      | some e =>
        refine Or.inr (Or.inr (Or.inl ⟨ts, evP, idsP, e, skP, hmb2, rfl, hp, ?_⟩))
        simp [process_message, hl, hmb2, hts, hp, headerEvents]
      | none =>
        rcases ht : tiffStep env (bf.getD []) (sensor_path ts tifExt) skP with
          ⟨evT, idsT, errT⟩
        cases errT with
        | some e =>
          refine Or.inr (Or.inr (Or.inr (Or.inl
            ⟨ts, evP, idsP, skP, evT, idsT, e, hmb2, rfl, hp, ht, ?_⟩)))
          simp [process_message, hl, hmb2, hts, hp, ht, headerEvents]
        | none =>
          refine Or.inr (Or.inr (Or.inr (Or.inr
            ⟨ts, evP, idsP, skP, evT, idsT, hmb2, rfl, hp, ht, ?_⟩)))
          simp [process_message, hl, hmb2, hts, hp, ht, headerEvents]

lemma countDecode_append (a b : List Event) :
    countDecode (a ++ b) = countDecode a + countDecode b :=
  List.countP_append _ _ _

lemma countCompletion_append (a b : List Event) :
    countCompletion (a ++ b) = countCompletion a + countCompletion b :=
  List.countP_append _ _ _

lemma countCreateImage_append (a b : List Event) :
    countCreateImage (a ++ b) = countCreateImage a + countCreateImage b :=
  List.countP_append _ _ _

lemma uploadUrls_append (a b : List Event) :
    uploadUrls (a ++ b) = uploadUrls a ++ uploadUrls b :=
  List.filterMap_append _ _ _

lemma countDecode_header (env : ProcEnv) (ts : Str) :
    countDecode (headerEvents env ts) = 0 := rfl

lemma countCompletion_header (env : ProcEnv) (ts : Str) :
    countCompletion (headerEvents env ts) = 0 := rfl

lemma countCreateImage_header (env : ProcEnv) (ts : Str) :
    countCreateImage (headerEvents env ts) = 0 := rfl

lemma uploadUrls_header (env : ProcEnv) (ts : Str) :
    uploadUrls (headerEvents env ts) = [] := rfl

/-! ## Theorems about the processing phase (claims C4, C5, C6, C8) -/


/-- C4: in every processing run at most one decode of the raw frame
happens — the two artifact steps never both decode. In a successful run
the decode count is exactly one when the preview branch runs (its result
shared by the georaster branch), exactly one when the preview branch is
skipped but the georaster branch runs (its own decode), and zero when
both are skipped. -/
theorem decode_once (env : ProcEnv) :
    countDecode (process_message env).1 ≤ 1 ∧
    (∀ ts, timestampOf env.datasetName = some ts →
      (process_message env).2 = none →
      countDecode (process_message env).1 =
        (if (!env.pathExists (sensor_path ts pngExt) || env.overwrite) = true
         then 1
         else if (!env.pathExists (sensor_path ts tifExt) || env.overwrite)
             = true
         then 1
         else 0)) := by
  rcases hl : locate_loop env.flirMdOf env.localPaths with ⟨md, bf⟩
  rcases process_message_cases env md bf hl with
    ⟨hmb, hpm⟩ | ⟨hmb, hts, hpm⟩ |
    ⟨ts, evP, idsP, e, skP, hmb, hts, hp, hpm⟩ |
    ⟨ts, evP, idsP, skP, evT, idsT, e, hmb, hts, hp, ht, hpm⟩ |
    ⟨ts, evP, idsP, skP, evT, idsT, hmb, hts, hp, ht, hpm⟩
  · refine ⟨by simp [hpm, countDecode], ?_⟩
    intro ts2 h1 h2
    rw [hpm] at h2
    simp at h2
  · refine ⟨by simp [hpm, countDecode], ?_⟩
    intro ts2 h1 h2
    rw [hpm] at h2
    simp at h2
  · have hfacts := pngStep_facts env (bf.getD []) (sensor_path ts pngExt)
    simp only [hp] at hfacts
    obtain ⟨hc, hsk, hids, hcomp⟩ := hfacts
    refine ⟨?_, ?_⟩
    · rw [hpm]
      simp only [countDecode_append, countDecode_header, hc]
      split_ifs <;> omega
    · intro ts2 h1 h2
      rw [hpm] at h2
      simp at h2
  · have hfacts := pngStep_facts env (bf.getD []) (sensor_path ts pngExt)
    simp only [hp] at hfacts
    obtain ⟨hc, hsk, hids, hcomp⟩ := hfacts
    have tfacts := tiffStep_facts env (bf.getD []) (sensor_path ts tifExt) skP
    simp only [ht] at tfacts
    obtain ⟨hcT, hidsT, hcompT, hciT, hbbT⟩ := tfacts
    refine ⟨?_, ?_⟩
    · rw [hpm]
      simp only [countDecode_append, countDecode_header]
      cases hrp : (!env.pathExists (sensor_path ts pngExt) || env.overwrite) with
      | true =>
        rw [hrp] at hc hsk
        simp at hc hsk
        rw [hsk] at hcT
        simp at hcT
        omega
      | false =>
        rw [hrp] at hc
        simp at hc
        have hT : countDecode evT ≤ 1 := by
          rw [hcT]
          split_ifs <;> omega
        omega
    · intro ts2 h1 h2
      rw [hpm] at h2
      simp at h2
  · have hfacts := pngStep_facts env (bf.getD []) (sensor_path ts pngExt)
    simp only [hp] at hfacts
    obtain ⟨hc, hsk, hids, hcomp⟩ := hfacts
    have tfacts := tiffStep_facts env (bf.getD []) (sensor_path ts tifExt) skP
    simp only [ht] at tfacts
    obtain ⟨hcT, hidsT, hcompT, hciT, hbbT⟩ := tfacts
    have hcount : countDecode (process_message env).1 =
        countDecode evP + countDecode evT := by
      rw [hpm]
      simp only [countDecode_append, countDecode_header]
      have h0 : countDecode [Event.writeCompletion env.resourceId
          (idsP ++ idsT), Event.endMessage] = 0 := rfl
      rw [h0]
      omega
    refine ⟨?_, ?_⟩
    · rw [hcount]
      cases hrp : (!env.pathExists (sensor_path ts pngExt) || env.overwrite) with
      | true =>
        rw [hrp] at hc hsk
        simp at hc hsk
        rw [hsk] at hcT
        simp at hcT
        omega
      | false =>
        rw [hrp] at hc
        simp at hc
        have hT : countDecode evT ≤ 1 := by
          rw [hcT]
          split_ifs <;> omega
        omega
    · intro ts2 h1 h2
      have hts2 : ts2 = ts := by
        rw [hts] at h1
        exact (Option.some.inj h1).symm
      rw [hts2, hcount]
      cases hrp : (!env.pathExists (sensor_path ts pngExt) || env.overwrite) with
      | true =>
        rw [hrp] at hc hsk
        simp at hc hsk
        rw [hsk] at hcT
        simp at hcT
        simp only [if_true]
        omega
      | false =>
        rw [hrp] at hc
        simp at hc
        rw [hrp] at hsk
        simp at hsk
        rw [hsk] at hcT
        cases hrt : (!env.pathExists (sensor_path ts tifExt) || env.overwrite) with
        | true =>
          have hbb : env.hasBoundingBox = true := hbbT (by trivial) hrt
          rw [hrt, hbb] at hcT
          simp at hcT
          simp only [Bool.false_eq_true, if_false, if_true]
          omega
        | false =>
          rw [hrt] at hcT
          simp at hcT
          simp only [Bool.false_eq_true, if_false]
          omega

/-- C4 witness: on a resource whose outputs both already exist (overwrite
off), the successful run performs zero decodes. -/
theorem decode_once_witness :
    countDecode (process_message
      { localPaths := ["a_ir.bin".toList, "b_dataset_metadata.json".toList]
        flirMdOf := fun _ => true
        datasetName := "Thermal IR - 2018-07-01__12-30-00".toList
        overwrite := false
        pathExists := fun _ => true
        binData := ⟨0, fun _ => 0⟩
        host := "h/".toList
        resourceId := "r".toList
        targetDsid := "d".toList
        tmpDir := "/tmp".toList
        hasBoundingBox := true
        createImageOk := true
        uploadPngOk := true
        geotiffOk := true
        uploadTiffOk := true
        pngFileId := "pid".toList
        tiffFileId := "tid".toList }).1 = 0 := by
  have h := (decode_once
    { localPaths := ["a_ir.bin".toList, "b_dataset_metadata.json".toList]
      flirMdOf := fun _ => true
      datasetName := "Thermal IR - 2018-07-01__12-30-00".toList
      overwrite := false
      pathExists := fun _ => true
      binData := ⟨0, fun _ => 0⟩
      host := "h/".toList
      resourceId := "r".toList
      targetDsid := "d".toList
      tmpDir := "/tmp".toList
      hasBoundingBox := true
      createImageOk := true
      uploadPngOk := true
      geotiffOk := true
      uploadTiffOk := true
      pngFileId := "pid".toList
      tiffFileId := "tid".toList }).2
    ("2018-07-01__12-30-00".toList) (by decide) (by decide)
  simpa using h

/-- C5: a successful processing run writes exactly one completion record,
as the last action before `end_message`, addressed to the original
input's record (`resource['id']`), listing precisely the urls of the
files uploaded during the run (possibly the empty list); a run that
raises writes no completion record at all. -/
theorem completion_record (env : ProcEnv) :
    ((process_message env).2 = none →
      ∃ E ids, (process_message env).1 =
          E ++ [Event.writeCompletion env.resourceId ids, Event.endMessage] ∧
        countCompletion E = 0 ∧ ids = uploadUrls E) ∧
    ((process_message env).2 ≠ none →
      countCompletion (process_message env).1 = 0) := by
  rcases hl : locate_loop env.flirMdOf env.localPaths with ⟨md, bf⟩
  rcases process_message_cases env md bf hl with
    ⟨hmb, hpm⟩ | ⟨hmb, hts, hpm⟩ |
    ⟨ts, evP, idsP, e, skP, hmb, hts, hp, hpm⟩ |
    ⟨ts, evP, idsP, skP, evT, idsT, e, hmb, hts, hp, ht, hpm⟩ |
    ⟨ts, evP, idsP, skP, evT, idsT, hmb, hts, hp, ht, hpm⟩
  · refine ⟨?_, ?_⟩
    · intro h
      rw [hpm] at h
      simp at h
    · intro h
      simp [hpm, countCompletion]
  · refine ⟨?_, ?_⟩
    · intro h
      rw [hpm] at h
      simp at h
    · intro h
      simp [hpm, countCompletion]
  · have hfacts := pngStep_facts env (bf.getD []) (sensor_path ts pngExt)
    simp only [hp] at hfacts
    obtain ⟨hc, hsk, hids, hcomp⟩ := hfacts
    refine ⟨?_, ?_⟩
    · intro h
      rw [hpm] at h
      simp at h
    · intro h
      rw [hpm]
      simp only [countCompletion_append, countCompletion_header, hcomp]
  · have hfacts := pngStep_facts env (bf.getD []) (sensor_path ts pngExt)
    simp only [hp] at hfacts
    obtain ⟨hc, hsk, hids, hcomp⟩ := hfacts
    have tfacts := tiffStep_facts env (bf.getD []) (sensor_path ts tifExt) skP
    simp only [ht] at tfacts
    obtain ⟨hcT, hidsT, hcompT, hciT, hbbT⟩ := tfacts
    refine ⟨?_, ?_⟩
    · intro h
      rw [hpm] at h
      simp at h
    · intro h
      rw [hpm]
      simp only [countCompletion_append, countCompletion_header, hcomp, hcompT]
  · have hfacts := pngStep_facts env (bf.getD []) (sensor_path ts pngExt)
    simp only [hp] at hfacts
    obtain ⟨hc, hsk, hids, hcomp⟩ := hfacts
    have tfacts := tiffStep_facts env (bf.getD []) (sensor_path ts tifExt) skP
    simp only [ht] at tfacts
    obtain ⟨hcT, hidsT, hcompT, hciT, hbbT⟩ := tfacts
    refine ⟨?_, ?_⟩
    · intro h
      refine ⟨headerEvents env ts ++ evP ++ evT, idsP ++ idsT, ?_, ?_, ?_⟩
      · rw [hpm]
      · simp only [countCompletion_append, countCompletion_header, hcomp,
          hcompT]
      · rw [hids, hidsT]
        simp only [uploadUrls_append, uploadUrls_header, List.nil_append]
    · intro h
      rw [hpm] at h
      simp at h

/-- C5 witness: a successful no-op run (both outputs already present)
still writes a single completion record against the resource id, with an
empty upload list. -/
theorem completion_record_witness :
    ∃ E ids, (process_message
      { localPaths := ["a_ir.bin".toList, "b_dataset_metadata.json".toList]
        flirMdOf := fun _ => true
        datasetName := "Thermal IR - 2018-07-01__12-30-00".toList
        overwrite := false
        pathExists := fun _ => true
        binData := ⟨0, fun _ => 0⟩
        host := "h/".toList
        resourceId := "r".toList
        targetDsid := "d".toList
        tmpDir := "/tmp".toList
        hasBoundingBox := true
        createImageOk := true
        uploadPngOk := true
        geotiffOk := true
        uploadTiffOk := true
        pngFileId := "pid".toList
        tiffFileId := "tid".toList }).1 =
      E ++ [Event.writeCompletion ("r".toList) ids, Event.endMessage] ∧
    countCompletion E = 0 ∧ ids = uploadUrls E :=
  (completion_record
    { localPaths := ["a_ir.bin".toList, "b_dataset_metadata.json".toList]
      flirMdOf := fun _ => true
      datasetName := "Thermal IR - 2018-07-01__12-30-00".toList
      overwrite := false
      pathExists := fun _ => true
      binData := ⟨0, fun _ => 0⟩
      host := "h/".toList
      resourceId := "r".toList
      targetDsid := "d".toList
      tmpDir := "/tmp".toList
      hasBoundingBox := true
      createImageOk := true
      uploadPngOk := true
      geotiffOk := true
      uploadTiffOk := true
      pngFileId := "pid".toList
      tiffFileId := "tid".toList }).1 (by decide)

/-- A fold with `locateStep` over paths matching neither suffix leaves
the accumulator unchanged. -/
lemma locate_foldl_id (flir : Str → Bool) (paths : List Str)
    (h1 : ∀ p ∈ paths, strEndsWith p mdSuffix = false)
    (h2 : ∀ p ∈ paths, strEndsWith p irSuffix = false) :
    ∀ acc, paths.foldl (locateStep flir) acc = acc := by
  induction paths with
  | nil => intro acc; rfl
  | cons a l ih =>
    intro acc
    have ha1 : strEndsWith a mdSuffix = false := h1 a (by simp)
    have ha2 : strEndsWith a irSuffix = false := h2 a (by simp)
    rw [List.foldl_cons]
    have hstep : locateStep flir acc a = acc := by
      simp [locateStep, ha1, ha2]
    rw [hstep]
    exact ih (fun p hp => h1 p (by simp [hp])) (fun p hp => h2 p (by simp [hp]))
      acc

/-- C6: when no local path ends in `_ir.bin` and none ends in
`_dataset_metadata.json`, the processing phase raises the fatal
`ValueError` immediately: the run performs no artifact creation, no
metadata write and no upload (its only event is `start_message`). -/
theorem missing_input_aborts (env : ProcEnv)
    (h1 : ∀ p ∈ env.localPaths, strEndsWith p irSuffix = false)
    (h2 : ∀ p ∈ env.localPaths, strEndsWith p mdSuffix = false) :
    process_message env = ([Event.startMessage], some PyErr.valueError) := by
  have hl : locate_loop env.flirMdOf env.localPaths = (none, none) := by
    unfold locate_loop
    exact locate_foldl_id env.flirMdOf env.localPaths h2 h1 (none, none)
  simp [process_message, hl]

/-- C6 witness: a resource with no local paths at all aborts with the
missing-input error, its trace reduced to `start_message`. -/
theorem missing_input_aborts_witness :
    process_message
      { localPaths := []
        flirMdOf := fun _ => true
        datasetName := "Thermal IR - 2018-07-01__12-30-00".toList
        overwrite := false
        pathExists := fun _ => true
        binData := ⟨0, fun _ => 0⟩
        host := "h/".toList
        resourceId := "r".toList
        targetDsid := "d".toList
        tmpDir := "/tmp".toList
        hasBoundingBox := true
        createImageOk := true
        uploadPngOk := true
        geotiffOk := true
        uploadTiffOk := true
        pngFileId := "pid".toList
        tiffFileId := "tid".toList } =
      ([Event.startMessage], some PyErr.valueError) :=
  missing_input_aborts _ (by simp) (by simp)

/-- The two derived output paths for one timestamp differ (they end in
different extensions). -/
lemma sensor_path_ext_ne (ts : Str) :
    sensor_path ts tifExt ≠ sensor_path ts pngExt := by
  intro h
  unfold sensor_path at h
  have h2 := List.append_cancel_left h
  simp [tifExt, pngExt] at h2

/-- Shape of a successful tiff branch that runs after a skipped png
branch: it decodes, writes the staging geotiff, moves it to the final
path, and uploads when the path is not already known. -/
lemma tiffStep_run_success (env : ProcEnv) (bp tp : Str)
    (hrun : (!env.pathExists tp || env.overwrite) = true)
    (h : (tiffStep env bp tp true).2.2 = none) :
    tiffStep env bp tp true =
      ([Event.decodeBin bp, Event.createGeotiff (tmpTiffPath env),
        Event.moveFile (tmpTiffPath env) tp] ++
        (if env.localPaths.contains tp then []
         else [Event.uploadFile env.targetDsid tp
           (fileUrl env.host env.tiffFileId)]),
       (if env.localPaths.contains tp then []
        else [fileUrl env.host env.tiffFileId]),
       none) := by
  unfold tiffStep at h ⊢
  rw [hrun] at h ⊢
  simp only [if_true] at h ⊢
  cases hbb : env.hasBoundingBox with
  | false => simp [hbb] at h
  | true =>
    simp only [hbb, Bool.not_true, Bool.false_eq_true, if_false] at h ⊢
    cases hd : decodeBinData env.binData with
    | error e => simp [hd] at h
    | ok a =>
      simp only [hd] at h ⊢
      cases hg : env.geotiffOk with
      | false => simp [hg] at h
      | true =>
        simp only [hg, Bool.not_true, Bool.false_eq_true, if_false] at h ⊢
        cases hct : env.localPaths.contains tp with
        | true => simp_all
        | false =>
          cases hu : env.uploadTiffOk with
          | false => simp_all
          | true => simp_all

/-- C8: when the preview output exists and the georaster does not
(overwrite off), a successful run renders no preview image, performs
exactly one decode (the georaster branch's own fresh decode), moves the
staged geotiff to the georaster path, and writes to no path equal to the
preview path — the preview file is untouched. The `tmpTiffPath`
hypothesis excludes a staging-path collision with the preview path (the
staging location is input-scoped per the concurrency model). -/
theorem partial_run_georaster_only (env : ProcEnv) (ts : Str)
    (hts : timestampOf env.datasetName = some ts)
    (hpng : env.pathExists (sensor_path ts pngExt) = true)
    (htiff : env.pathExists (sensor_path ts tifExt) = false)
    (how : env.overwrite = false)
    (htmp : tmpTiffPath env ≠ sensor_path ts pngExt)
    (hok : (process_message env).2 = none) :
    countCreateImage (process_message env).1 = 0 ∧
    countDecode (process_message env).1 = 1 ∧
    Event.moveFile (tmpTiffPath env) (sensor_path ts tifExt) ∈
      (process_message env).1 ∧
    (∀ e ∈ (process_message env).1,
      writeTarget e ≠ some (sensor_path ts pngExt)) := by
  rcases hl : locate_loop env.flirMdOf env.localPaths with ⟨md, bf⟩
  rcases process_message_cases env md bf hl with
    ⟨hmb, hpm⟩ | ⟨hmb, hts2, hpm⟩ |
    ⟨ts2, evP, idsP, e, skP, hmb, hts2, hp, hpm⟩ |
    ⟨ts2, evP, idsP, skP, evT, idsT, e, hmb, hts2, hp, ht, hpm⟩ |
    ⟨ts2, evP, idsP, skP, evT, idsT, hmb, hts2, hp, ht, hpm⟩
  · rw [hpm] at hok
    simp at hok
  · rw [hpm] at hok
    simp at hok
  · rw [hpm] at hok
    simp at hok
  · rw [hpm] at hok
    simp at hok
  · have hts3 : ts = ts2 := by
      rw [hts] at hts2
      exact Option.some.inj hts2
    subst hts3
    have hps : pngStep env (bf.getD []) (sensor_path ts pngExt) =
        ([], [], none, true) := by
      simp [pngStep, hpng, how]
    have hPQ := hp.symm.trans hps
    simp only [Prod.mk.injEq, and_true, true_and] at hPQ
    obtain ⟨hevP, hidsP, hskP⟩ := hPQ
    subst hevP
    subst hidsP
    subst hskP
    have hrun : (!env.pathExists (sensor_path ts tifExt) || env.overwrite)
        = true := by
      rw [htiff, how]
      rfl
    have hterr : (tiffStep env (bf.getD []) (sensor_path ts tifExt) true).2.2
        = none := by
      rw [ht]
    have hshape := tiffStep_run_success env (bf.getD [])
      (sensor_path ts tifExt) hrun hterr
    have hTQ := ht.symm.trans hshape
    simp only [Prod.mk.injEq, and_true, true_and] at hTQ
    obtain ⟨hevT, hidsT⟩ := hTQ
    subst hevT
    subst hidsT
    cases hct : env.localPaths.contains (sensor_path ts tifExt) with
    | true =>
      rw [hct] at hpm
      simp only [if_true, List.append_nil, List.nil_append] at hpm
      refine ⟨?_, ?_, ?_, ?_⟩
      · rw [hpm]
        simp [countCreateImage, headerEvents, List.countP_append,
          List.countP_cons, List.countP_nil]
      · rw [hpm]
        simp [countDecode, headerEvents, List.countP_append,
          List.countP_cons, List.countP_nil]
      · rw [hpm]
        simp [headerEvents]
      · intro ev hev
        rw [hpm] at hev
        simp [headerEvents] at hev
        rcases hev with h | h | h | h | h | h | h | h <;> subst h <;>
          simp [writeTarget]
        · exact fun hc => htmp hc
        · exact fun hc => sensor_path_ext_ne ts hc
    | false =>
      rw [hct] at hpm
      simp only [Bool.false_eq_true, if_false, List.nil_append] at hpm
      refine ⟨?_, ?_, ?_, ?_⟩
      · rw [hpm]
        simp [countCreateImage, headerEvents, List.countP_append,
          List.countP_cons, List.countP_nil]
      · rw [hpm]
        simp [countDecode, headerEvents, List.countP_append,
          List.countP_cons, List.countP_nil]
      · rw [hpm]
        simp [headerEvents]
      · intro ev hev
        rw [hpm] at hev
        simp [headerEvents] at hev
        rcases hev with h | h | h | h | h | h | h | h | h <;> subst h <;>
          simp [writeTarget]
        · exact fun hc => htmp hc
        · exact fun hc => sensor_path_ext_ne ts hc

/-- C8 witness: a resource whose preview exists but whose georaster does
not (overwrite off) gets exactly one decode and no preview render. -/
theorem partial_run_georaster_only_witness :
    countCreateImage (process_message
      { localPaths := ["a_ir.bin".toList, "b_dataset_metadata.json".toList]
        flirMdOf := fun _ => true
        datasetName := "Thermal IR - 2018-07-01__12-30-00".toList
        overwrite := false
        pathExists := fun p =>
          p == sensor_path ("2018-07-01__12-30-00".toList) pngExt
        binData := ⟨2 * (480 * 640), fun _ => 0⟩
        host := "h/".toList
        resourceId := "r".toList
        targetDsid := "d".toList
        tmpDir := "/tmp".toList
        hasBoundingBox := true
        createImageOk := true
        uploadPngOk := true
        geotiffOk := true
        uploadTiffOk := true
        pngFileId := "pid".toList
        tiffFileId := "tid".toList }).1 = 0 ∧
    countDecode (process_message
      { localPaths := ["a_ir.bin".toList, "b_dataset_metadata.json".toList]
        flirMdOf := fun _ => true
        datasetName := "Thermal IR - 2018-07-01__12-30-00".toList
        overwrite := false
        pathExists := fun p =>
          p == sensor_path ("2018-07-01__12-30-00".toList) pngExt
        binData := ⟨2 * (480 * 640), fun _ => 0⟩
        host := "h/".toList
        resourceId := "r".toList
        targetDsid := "d".toList
        tmpDir := "/tmp".toList
        hasBoundingBox := true
        createImageOk := true
        uploadPngOk := true
        geotiffOk := true
        uploadTiffOk := true
        pngFileId := "pid".toList
        tiffFileId := "tid".toList }).1 = 1 := by
  have h := partial_run_georaster_only
    { localPaths := ["a_ir.bin".toList, "b_dataset_metadata.json".toList]
      flirMdOf := fun _ => true
      datasetName := "Thermal IR - 2018-07-01__12-30-00".toList
      overwrite := false
      pathExists := fun p =>
        p == sensor_path ("2018-07-01__12-30-00".toList) pngExt
      binData := ⟨2 * (480 * 640), fun _ => 0⟩
      host := "h/".toList
      resourceId := "r".toList
      targetDsid := "d".toList
      tmpDir := "/tmp".toList
      hasBoundingBox := true
      createImageOk := true
      uploadPngOk := true
      geotiffOk := true
      uploadTiffOk := true
      pngFileId := "pid".toList
      tiffFileId := "tid".toList }
    ("2018-07-01__12-30-00".toList) (by decide) (by decide) (by decide)
    (by decide) (by decide) (by decide)
  exact ⟨h.1, h.2.1⟩

/-! ## Theorems about duplicate-input selection (claim C9) -/

lemma found_ir_concat (l : List FileEntry) (a : FileEntry) :
    found_ir (l ++ [a]) = foundIrStep (found_ir l) a := by
  simp [found_ir, List.foldl_append]

lemma locate_loop_concat (flir : Str → Bool) (l : List Str) (a : Str) :
    locate_loop flir (l ++ [a]) = locateStep flir (locate_loop flir l) a := by
  simp [locate_loop, List.foldl_append]

/-- C9: both file-location loops keep overwriting their result, so the
last matching entry in list order wins. `check_message` selects the
filepath of the last file whose filename ends in `_ir.bin`;
`process_message` selects the last local path ending in `_ir.bin` as the
raw file, and derives its metadata from the last local path ending in
`_dataset_metadata.json` (even when an earlier metadata file had the
needed key and the last does not). -/
theorem last_match_selected :
    (∀ files : List FileEntry,
      found_ir files =
        (files.reverse.find? (fun f =>
          match f.filename with
          | some n => strEndsWith n irSuffix
          | none => false)).map (fun f => f.filepath)) ∧
    (∀ (flir : Str → Bool) (paths : List Str),
      (locate_loop flir paths).2 =
        paths.reverse.find? (fun f =>
          !strEndsWith f mdSuffix && strEndsWith f irSuffix) ∧
      (locate_loop flir paths).1 =
        (paths.reverse.find? (fun f => strEndsWith f mdSuffix)).bind
          (fun f => if flir f then some f else none)) := by
  constructor
  · intro files
    induction files using List.reverseRecOn with
    | nil => rfl
    | append_singleton l a ih =>
      rw [found_ir_concat, List.reverse_append, List.reverse_singleton,
        List.singleton_append]
      cases hfn : a.filename with
      | none =>
        rw [List.find?_cons_of_neg]
        · simp [foundIrStep, hfn, ih]
        · simp [hfn]
      | some n =>
        cases hends : strEndsWith n irSuffix with
        | true =>
          rw [List.find?_cons_of_pos]
          · simp [foundIrStep, hfn, hends]
          · simp [hfn, hends]
        | false =>
          rw [List.find?_cons_of_neg]
          · simp [foundIrStep, hfn, hends, ih]
          · simp [hfn, hends]
  · intro flir paths
    induction paths using List.reverseRecOn with
    | nil => exact ⟨rfl, rfl⟩
    | append_singleton l a ih =>
      obtain ⟨ih2, ih1⟩ := ih
      rw [locate_loop_concat, List.reverse_append, List.reverse_singleton,
        List.singleton_append]
      constructor
      · cases hmd : strEndsWith a mdSuffix with
        | true =>
          rw [List.find?_cons_of_neg]
          · simp [locateStep, hmd, ih2]
          · simp [hmd]
        | false =>
          cases hir : strEndsWith a irSuffix with
          | true =>
            rw [List.find?_cons_of_pos]
            · simp [locateStep, hmd, hir]
            · simp [hmd, hir]
          | false =>
            rw [List.find?_cons_of_neg]
            · simp [locateStep, hmd, hir, ih2]
            · simp [hmd, hir]
      · cases hmd : strEndsWith a mdSuffix with
        | true =>
          rw [List.find?_cons_of_pos]
          · simp [locateStep, hmd]
          · exact hmd
        | false =>
          rw [List.find?_cons_of_neg]
          · cases hir : strEndsWith a irSuffix with
            | true => simp [locateStep, hmd, hir, ih1]
            | false => simp [locateStep, hmd, hir, ih1]
          · simp [hmd]

/-! ## Theorems about the timestamp key (claims C7, C10) -/

/-- C10: on a dataset name not containing the `" - "` delimiter
(`containsSub sepStr name = false`), the processing phase — once the
input files are located — raises `IndexError` before any output event,
and the decision phase with overwrite off (reaching the output-existence
check) propagates the same `IndexError` instead of a clean skip, without
downloading metadata. -/
theorem missing_delimiter_errors (env : ProcEnv) (cenv : CheckEnv)
    (hn : containsSub sepStr env.datasetName = false)
    (hb : (locate_loop env.flirMdOf env.localPaths).2.isSome = true)
    (hm : (locate_loop env.flirMdOf env.localPaths).1.isSome = true)
    (hcn : containsSub sepStr cenv.datasetName = false)
    (hrc : cenv.rulechecked = false)
    (hlat : cenv.isLatest = true)
    (hfi : (found_ir cenv.files).isSome = true)
    (how : cenv.overwrite = false) :
    process_message env = ([Event.startMessage], some PyErr.indexError) ∧
    check_message cenv = (Except.error PyErr.indexError, false) := by
  constructor
  · have hts : timestampOf env.datasetName = none :=
      (timestampOf_none_iff env.datasetName).mpr hn
    rcases hl : locate_loop env.flirMdOf env.localPaths with ⟨md, bf⟩
    rw [hl] at hb hm
    simp only [Option.isSome_iff_exists] at hb hm
    obtain ⟨b, hb2⟩ := hb
    obtain ⟨m, hm2⟩ := hm
    simp [process_message, hl, hb2, hm2, hts]
  · have hts2 : timestampOf cenv.datasetName = none :=
      (timestampOf_none_iff cenv.datasetName).mpr hcn
    obtain ⟨v, hv⟩ := Option.isSome_iff_exists.mp hfi
    simp [check_message, outputsCheck, hrc, hlat, hv, how, hts2]

/-- C10 witness: a concrete delimiter-free dataset name makes both
phases raise `IndexError`. -/
theorem missing_delimiter_errors_witness :
    process_message
      { localPaths := ["a_ir.bin".toList, "b_dataset_metadata.json".toList]
        flirMdOf := fun _ => true
        datasetName := "NoDelimiterName".toList
        overwrite := false
        pathExists := fun _ => true
        binData := ⟨0, fun _ => 0⟩
        host := "h/".toList
        resourceId := "r".toList
        targetDsid := "d".toList
        tmpDir := "/tmp".toList
        hasBoundingBox := true
        createImageOk := true
        uploadPngOk := true
        geotiffOk := true
        uploadTiffOk := true
        pngFileId := "pid".toList
        tiffFileId := "tid".toList } =
      ([Event.startMessage], some PyErr.indexError) ∧
    check_message
      { rulechecked := false
        isLatest := true
        files := [⟨some ("x_ir.bin".toList), "p/x_ir.bin".toList⟩]
        overwrite := false
        datasetName := "NoDelimiterName".toList
        pathExists := fun _ => true
        hasExtractorMd := false
        hasTerrarefMd := true } =
      (Except.error PyErr.indexError, false) :=
  missing_delimiter_errors _ _ (by decide) (by decide) (by decide) (by decide)
    rfl rfl (by decide) rfl

/-- C7 counterexample: for the dataset name
`"Thermal IR - 2018-07-01__12-30-00 - extra"`, which contains the
delimiter twice, the code derives the timestamp key
`"2018-07-01__12-30-00"` (the second component of the split), while the
substring after the first delimiter is
`"2018-07-01__12-30-00 - extra"` — the claim's asserted key differs from
the one the code uses. -/
theorem timestamp_key_counterexample :
    timestampOf ("Thermal IR - 2018-07-01__12-30-00 - extra".toList) =
      some ("2018-07-01__12-30-00".toList) ∧
    substringAfterFirst sepStr
        ("Thermal IR - 2018-07-01__12-30-00 - extra".toList) =
      some ("2018-07-01__12-30-00 - extra".toList) ∧
    timestampOf ("Thermal IR - 2018-07-01__12-30-00 - extra".toList) ≠
      substringAfterFirst sepStr
        ("Thermal IR - 2018-07-01__12-30-00 - extra".toList) := by
  decide

/-- C7 amended: the canonical timestamp key is the SECOND component of
splitting the dataset name on `" - "` — the portion between the first
delimiter occurrence and the next one, which equals the whole substring
after the first delimiter exactly when the delimiter occurs only once.
Every run that reaches the hierarchy step places the derived dataset
under year/month/day taken from positions [0:4], [5:7], [8:10] of that
key; the scenario name `"Thermal IR - 2018-07-01__12-30-00"` yields
`2018`/`07`/`01` and both output basenames embed the key. -/
theorem timestamp_key_amended :
    (∀ name i, findSub sepStr name = some i →
      findSub sepStr (name.drop (i + sepStr.length)) = none →
      timestampOf name = substringAfterFirst sepStr name) ∧
    (∀ name i j, findSub sepStr name = some i →
      findSub sepStr (name.drop (i + sepStr.length)) = some j →
      timestampOf name = some ((name.drop (i + sepStr.length)).take j)) ∧
    (∀ (env : ProcEnv) ts, timestampOf env.datasetName = some ts →
      (locate_loop env.flirMdOf env.localPaths).2.isSome = true →
      (locate_loop env.flirMdOf env.localPaths).1.isSome = true →
      Event.buildHierarchy (strSlice ts 0 4) (strSlice ts 5 7)
          (strSlice ts 8 10) (displayName ++ sepStr ++ ts) ∈
        (process_message env).1) ∧
    (timestampOf ("Thermal IR - 2018-07-01__12-30-00".toList) =
        some ("2018-07-01__12-30-00".toList) ∧
      strSlice ("2018-07-01__12-30-00".toList) 0 4 = "2018".toList ∧
      strSlice ("2018-07-01__12-30-00".toList) 5 7 = "07".toList ∧
      strSlice ("2018-07-01__12-30-00".toList) 8 10 = "01".toList ∧
      containsSub ("2018-07-01__12-30-00".toList)
        (baseName (sensor_path ("2018-07-01__12-30-00".toList) pngExt))
        = true ∧
      containsSub ("2018-07-01__12-30-00".toList)
        (baseName (sensor_path ("2018-07-01__12-30-00".toList) tifExt))
        = true) := by
  refine ⟨?_, ?_, ?_, by decide⟩
  · intro name i h1 h2
    simp [timestampOf, py_split_get1, substringAfterFirst, h1, h2]
  · intro name i j h1 h2
    simp [timestampOf, py_split_get1, h1, h2]
  · intro env ts hts hb hm
    rcases hl : locate_loop env.flirMdOf env.localPaths with ⟨md, bf⟩
    rw [hl] at hb hm
    simp only [Option.isSome_iff_exists] at hb hm
    obtain ⟨b, hb2⟩ := hb
    obtain ⟨m, hm2⟩ := hm
    rcases process_message_cases env md bf hl with
      ⟨hmb, hpm⟩ | ⟨hmb, hts2, hpm⟩ |
      ⟨ts2, evP, idsP, e, skP, hmb, hts2, hp, hpm⟩ |
      ⟨ts2, evP, idsP, skP, evT, idsT, e, hmb, hts2, hp, ht, hpm⟩ |
      ⟨ts2, evP, idsP, skP, evT, idsT, hmb, hts2, hp, ht, hpm⟩
    · rw [hb2, hm2] at hmb
      simp at hmb
    · rw [hts] at hts2
      cases hts2
    · have hts3 : ts = ts2 := by
        rw [hts] at hts2
        exact Option.some.inj hts2
      subst hts3
      rw [hpm]
      simp [headerEvents]
    · have hts3 : ts = ts2 := by
        rw [hts] at hts2
        exact Option.some.inj hts2
      subst hts3
      rw [hpm]
      simp [headerEvents]
    · have hts3 : ts = ts2 := by
        rw [hts] at hts2
        exact Option.some.inj hts2
      subst hts3
      rw [hpm]
      simp [headerEvents]

/-- C7 amended, witness: the scenario name has a single delimiter
occurrence (at index 10), so the derived key coincides with the
substring after the first delimiter. -/
theorem timestamp_key_amended_witness :
    timestampOf ("Thermal IR - 2018-07-01__12-30-00".toList) =
      substringAfterFirst sepStr
        ("Thermal IR - 2018-07-01__12-30-00".toList) :=
  timestamp_key_amended.1 ("Thermal IR - 2018-07-01__12-30-00".toList) 10
    (by decide) (by decide)
